import Mathlib

/-!
# MusicBridge mapper — verification of the catalog-resolution core

Shallow embedding of `src/backend/index.js` (the musicbridge mapping
service): link parsing, the Spotify token cache, the provider search
helpers, playlist pagination, and the three `/map/*` route handlers.
Network effects are modelled by explicit oracle arguments (the decoded
response a `fetch` would have produced), and thrown JavaScript errors by
`Except.error`.
-/

namespace MusicBridge

/-- JavaScript truthiness for a nullable string: `null`/`undefined` and the
empty string are falsy, every other string is truthy. -/
def strTruthy : Option String → Bool
  | none => false
  | some s => s ≠ ""

/-- The JS idiom `x || null`: a falsy value (here `null` or `""`) becomes
`null`, anything else is kept. -/
def jsOrNull (x : Option String) : Option String :=
  if strTruthy x then x else none

/-- `/^\d+$/.test s`: `s` is non-empty and consists only of digits. -/
def isAllDigits (s : String) : Bool :=
  s.toList ≠ [] && s.toList.all Char.isDigit

/-- `pat` occurs at the start of `s` (over character lists, so that the
kernel can evaluate it). -/
def charsStartWith : List Char → List Char → Bool
  | _, [] => true
  | [], _ :: _ => false
  | a :: s, b :: pat => a = b && charsStartWith s pat

/-- `pat` occurs somewhere in `s`. -/
def charsContain (s pat : List Char) : Bool :=
  match s with
  | [] => charsStartWith [] pat
  | _ :: rest => charsStartWith s pat || charsContain rest pat

/-- `host.includes(pat)`: substring containment on the underlying
character lists. -/
def hostIncludes (s pat : String) : Bool :=
  charsContain s.toList pat.toList

/-! ## Link parser (`parseInputUrl`, index.js 65–109) -/

/-- The pieces of a successfully constructed JS `URL` that `parseInputUrl`
reads: `url.hostname`, `url.pathname.split('/').filter(Boolean)` (so every
segment is non-empty), and `url.searchParams.get('i')` (`none` when the
parameter is absent; `some ""` is possible for `?i=`). -/
structure UrlParts where
  host : String
  parts : List String
  queryI : Option String
  deriving Repr, DecidableEq

inductive Platform
  | spotify | apple | unknownPlat | invalidPlat
  deriving Repr, DecidableEq

inductive LinkKind
  | song | album | playlist | unknownKind | invalidKind
  deriving Repr, DecidableEq

/-- `ParsedLink`: the `{platform, kind, id}` triple returned by
`parseInputUrl` (the `raw` field is never read again and is omitted). -/
structure ParsedLink where
  platform : Platform
  kind : LinkKind
  id : Option String
  deriving Repr, DecidableEq

/-- index.js 97–100: the fallback rule inside the Apple `album` branch —
take the final path segment if it is all digits (`parts` is non-empty
whenever this is reached, since it contains `"album"`). -/
def appleLastSegmentId (parts : List String) : Option String :=
  match parts.getLast? with
  | some l => if isAllDigits l then some l else none
  | none => none

/-- index.js 91–101: Apple path inspection once no `i` query parameter was
used. `findIdx?` models `parts.findIndex(p => p === 'album')`; the candidate
id is the segment at exactly `albumIdx + 2` if it is all digits, else the
last segment if it is all digits, else the link is `unknown` with no id. -/
def appleAlbumFromPath (parts : List String) : ParsedLink :=
  match parts.findIdx? (fun p => p = "album") with
  | some albumIdx =>
    match parts[albumIdx + 2]? with
    | some maybeId =>
      if isAllDigits maybeId then ⟨.apple, .album, some maybeId⟩
      else
        match appleLastSegmentId parts with
        | some l => ⟨.apple, .album, some l⟩
        | none => ⟨.apple, .unknownKind, none⟩
    | none =>
      match appleLastSegmentId parts with
      | some l => ⟨.apple, .album, some l⟩
      | none => ⟨.apple, .unknownKind, none⟩
  | none => ⟨.apple, .unknownKind, none⟩

/-- `parseInputUrl` (index.js 65–109). The input is `none` when `new URL(u)`
throws (malformed URL), mirroring the surrounding `try/catch`. Spotify hosts
are checked first; the Apple branch prefers a truthy `i` query parameter
(kind `song`) over any path inspection. -/
def parseInputUrl : Option UrlParts → ParsedLink
  | none => ⟨.invalidPlat, .invalidKind, none⟩
  | some u =>
    if hostIncludes u.host "open.spotify.com" then
      match u.parts with
      | "track" :: rest => ⟨.spotify, .song, rest.head?⟩
      | "album" :: rest => ⟨.spotify, .album, rest.head?⟩
      | "playlist" :: rest => ⟨.spotify, .playlist, rest.head?⟩
      | _ => ⟨.spotify, .unknownKind, none⟩
    else if hostIncludes u.host "music.apple.com" || hostIncludes u.host "itunes.apple.com" then
      if strTruthy u.queryI then ⟨.apple, .song, u.queryI⟩
      else appleAlbumFromPath u.parts
    else ⟨.unknownPlat, .unknownKind, none⟩

example :
    parseInputUrl (some ⟨"open.spotify.com", ["track", "abc123"], none⟩) =
      ⟨.spotify, .song, some "abc123"⟩ := by decide

example :
    parseInputUrl (some ⟨"music.apple.com", ["us", "album", "name", "123"], none⟩) =
      ⟨.apple, .album, some "123"⟩ := by decide

example :
    parseInputUrl (some ⟨"music.apple.com", ["us", "album", "name", "123"], some "999"⟩) =
      ⟨.apple, .song, some "999"⟩ := by decide

example :
    parseInputUrl (some ⟨"music.apple.com", ["album", "x", "y", "123", "abc"], none⟩) =
      ⟨.apple, .unknownKind, none⟩ := by decide

/-! ## Provider search helpers (index.js 171–286)

Each helper performs one `fetch`; the oracle argument is the outcome of
that fetch as the helper sees it. Query-string construction is elided (it
only determines which request the oracle answers). -/

/-- The only way a search helper can throw: the `fetch` or `resp.json()`
promise rejects (transport / body-decoding failure), which the helper does
not catch. -/
inductive SearchErr
  | transport
  deriving Repr, DecidableEq

/-- Outcome of a `fetch` inside a helper: either the transport layer failed,
or a response arrived carrying its `ok` flag and decoded JSON body. -/
inductive FetchOutcome (α : Type)
  | transportFail
  | response (ok : Bool) (body : α)
  deriving Repr, DecidableEq

/-- One element of `json.tracks.items` / `json.albums.items` in a Spotify
search response, restricted to the fields the helpers read
(`item.external_urls?.spotify`, `item.id`, `item.name`,
`item.artists?.map(a => a.name)`). -/
structure SpotifyItem where
  id : String
  name : String
  spotifyUrl : Option String
  artistNames : Option (List String)
  deriving Repr, DecidableEq

/-- The `{url, id, name, artists}` object a Spotify search helper returns. -/
structure SpMatch where
  url : Option String
  id : String
  name : String
  artists : Option (List String)
  deriving Repr, DecidableEq

/-- The object literal built at index.js 179/190/201/212. -/
def normalizeSpotifyItem (item : SpotifyItem) : SpMatch :=
  ⟨item.spotifyUrl, item.id, item.name, item.artistNames⟩

/-- `searchSpotifyTrackByIsrc` (index.js 171–180). The body is
`json?.tracks?.items` (possibly absent). A non-OK response returns `null`;
an absent or empty item list returns `null`; only transport failure throws. -/
def searchSpotifyTrackByIsrc (isrc : String)
    (fetched : FetchOutcome (Option (List SpotifyItem))) :
    Except SearchErr (Option SpMatch) :=
  match fetched with
  | .transportFail => .error .transport
  | .response ok body =>
    if !ok then .ok none
    else
      match body.bind List.head? with
      | none => .ok none
      | some item => .ok (some (normalizeSpotifyItem item))

/-- `searchSpotifyTrackByText` (index.js 182–191): same shape as the ISRC
search (only the query string and result limit differ). -/
def searchSpotifyTrackByText (name artist : String)
    (fetched : FetchOutcome (Option (List SpotifyItem))) :
    Except SearchErr (Option SpMatch) :=
  match fetched with
  | .transportFail => .error .transport
  | .response ok body =>
    if !ok then .ok none
    else
      match body.bind List.head? with
      | none => .ok none
      | some item => .ok (some (normalizeSpotifyItem item))

/-- `searchSpotifyAlbumByUpc` (index.js 193–202); the body is
`json?.albums?.items`. -/
def searchSpotifyAlbumByUpc (upc : String)
    (fetched : FetchOutcome (Option (List SpotifyItem))) :
    Except SearchErr (Option SpMatch) :=
  match fetched with
  | .transportFail => .error .transport
  | .response ok body =>
    if !ok then .ok none
    else
      match body.bind List.head? with
      | none => .ok none
      | some item => .ok (some (normalizeSpotifyItem item))

/-- `searchSpotifyAlbumByText` (index.js 204–213). -/
def searchSpotifyAlbumByText (name artist : String)
    (fetched : FetchOutcome (Option (List SpotifyItem))) :
    Except SearchErr (Option SpMatch) :=
  match fetched with
  | .transportFail => .error .transport
  | .response ok body =>
    if !ok then .ok none
    else
      match body.bind List.head? with
      | none => .ok none
      | some item => .ok (some (normalizeSpotifyItem item))

/-- One element of `json.results` in an iTunes song search / lookup
response, restricted to the fields the song helpers read. -/
structure ItunesTrackResult where
  kind : Option String
  trackName : Option String
  artistName : Option String
  collectionName : Option String
  isrc : Option String
  trackViewUrl : Option String
  previewUrl : Option String
  deriving Repr, DecidableEq

/-- Result of `normalizeItunesSong`. -/
structure AppleSongMatch where
  name : Option String
  artists : List (Option String)
  album : Option String
  isrc : Option String
  appleUrl : Option String
  previewUrl : Option String
  deriving Repr, DecidableEq

/-- `normalizeItunesSong` (index.js 246–255): `|| null` coalescing on
`isrc`, `trackViewUrl` and `previewUrl`. -/
def normalizeItunesSong (item : ItunesTrackResult) : AppleSongMatch :=
  ⟨item.trackName, [item.artistName], item.collectionName,
    jsOrNull item.isrc, jsOrNull item.trackViewUrl, jsOrNull item.previewUrl⟩

/-- `itunesSearchSongByIsrc` (index.js 227–235): picks the first result with
`kind === 'song'`; non-OK response or no such result yields `null`. -/
def itunesSearchSongByIsrc (isrc : String)
    (fetched : FetchOutcome (Option (List ItunesTrackResult))) :
    Except SearchErr (Option AppleSongMatch) :=
  match fetched with
  | .transportFail => .error .transport
  | .response ok body =>
    if !ok then .ok none
    else
      match body.bind (List.find? (fun r => r.kind = some "song")) with
      | none => .ok none
      | some item => .ok (some (normalizeItunesSong item))

/-- `itunesSearchSongByText` (index.js 236–245): same selection rule as the
ISRC variant, different query string. -/
def itunesSearchSongByText (name artist : String)
    (fetched : FetchOutcome (Option (List ItunesTrackResult))) :
    Except SearchErr (Option AppleSongMatch) :=
  match fetched with
  | .transportFail => .error .transport
  | .response ok body =>
    if !ok then .ok none
    else
      match body.bind (List.find? (fun r => r.kind = some "song")) with
      | none => .ok none
      | some item => .ok (some (normalizeItunesSong item))

/-- One element of `json.results` in an iTunes album search response,
restricted to the fields the album helpers read. `collectionId` is a JS
number (`0` is falsy). -/
structure ItunesAlbumResult where
  collectionType : Option String
  collectionId : Option Int
  collectionName : Option String
  artistName : Option String
  upc : Option String
  collectionViewUrl : Option String
  artworkUrl100 : Option String
  deriving Repr, DecidableEq

/-- JS truthiness for a nullable number. -/
def numTruthy : Option Int → Bool
  | none => false
  | some n => n ≠ 0

/-- The JS idiom `n || null` on a nullable number. -/
def jsOrNullNum (x : Option Int) : Option Int :=
  if numTruthy x then x else none

/-- Result of `normalizeItunesAlbum`. -/
structure AppleAlbumMatch where
  name : Option String
  artists : List (Option String)
  upc : Option String
  appleUrl : Option String
  artwork : Option String
  collectionId : Option Int
  deriving Repr, DecidableEq

/-- `normalizeItunesAlbum` (index.js 277–286). -/
def normalizeItunesAlbum (item : ItunesAlbumResult) : AppleAlbumMatch :=
  ⟨item.collectionName, [item.artistName], jsOrNull item.upc,
    jsOrNull item.collectionViewUrl, jsOrNull item.artworkUrl100,
    jsOrNullNum item.collectionId⟩

/-- The selection predicate at index.js 263/273:
`r.collectionType === 'Album' || r.collectionId` (truthy). -/
def isAlbumResult (r : ItunesAlbumResult) : Bool :=
  r.collectionType = some "Album" || numTruthy r.collectionId

/-- `itunesSearchAlbumByUpc` (index.js 258–266). -/
def itunesSearchAlbumByUpc (upc : String)
    (fetched : FetchOutcome (Option (List ItunesAlbumResult))) :
    Except SearchErr (Option AppleAlbumMatch) :=
  match fetched with
  | .transportFail => .error .transport
  | .response ok body =>
    if !ok then .ok none
    else
      match body.bind (List.find? isAlbumResult) with
      | none => .ok none
      | some item => .ok (some (normalizeItunesAlbum item))

/-- `itunesSearchAlbumByText` (index.js 267–276). -/
def itunesSearchAlbumByText (name artist : String)
    (fetched : FetchOutcome (Option (List ItunesAlbumResult))) :
    Except SearchErr (Option AppleAlbumMatch) :=
  match fetched with
  | .transportFail => .error .transport
  | .response ok body =>
    if !ok then .ok none
    else
      match body.bind (List.find? isAlbumResult) with
      | none => .ok none
      | some item => .ok (some (normalizeItunesAlbum item))

/-- `itunesLookupById` (index.js 217–224), polymorphic in the decoded
result shape (song or album lookups). A falsy id returns `null` before any
fetch; a non-OK response or an empty `results` list gives `null`
(`json.results?.[0] || null`); transport failure throws. -/
def itunesLookupById {α : Type} (id : Option String)
    (fetched : FetchOutcome (Option (List α))) : Except SearchErr (Option α) :=
  if !(strTruthy id) then .ok none
  else
    match fetched with
    | .transportFail => .error .transport
    | .response ok body =>
      if !ok then .ok none
      else .ok (body.bind List.head?)

/-! ## Spotify token cache (`spotifyTokenCache` / `getSpotifyToken`,
index.js 23–61) -/

/-- The module-level `spotifyTokenCache` object; `{token: null, expires: 0}`
at process start. `expires` is a millisecond timestamp. -/
structure TokenCache where
  token : Option String
  expires : Int
  deriving Repr, DecidableEq

def initialTokenCache : TokenCache := ⟨none, 0⟩

/-- The two environment secrets `getSpotifyToken` reads. -/
structure TokenEnv where
  clientId : Option String
  clientSecret : Option String
  deriving Repr, DecidableEq

/-- Decoded body of a successful token-exchange response:
`{access_token, expires_in}` (seconds). -/
structure TokenResp where
  accessToken : String
  expiresIn : Int
  deriving Repr, DecidableEq

inductive TokenErr
  | configMissing
  | exchangeFailed
  deriving Repr, DecidableEq

/-- What one call to `getSpotifyToken` returns and leaves behind. -/
structure TokenStep where
  result : Except TokenErr String
  cache : TokenCache
  exchangeCalled : Bool
  deriving Repr

/-- `getSpotifyToken` (index.js 28–61). A truthy cached token with
`Date.now() < expires` is returned immediately with no network call; on a
miss, absent secrets throw the config error before any fetch; otherwise the
exchange outcome is consulted and a success is stored with
`expires = now + (expires_in - 300) * 1000` — a fixed 5-minute (300 s)
safety margin — before the token is returned. -/
def getSpotifyToken (cache : TokenCache) (now : Int) (env : TokenEnv)
    (exchange : Except Unit TokenResp) : TokenStep :=
  if strTruthy cache.token ∧ now < cache.expires then
    ⟨.ok (cache.token.getD ""), cache, false⟩
  else if !(strTruthy env.clientId && strTruthy env.clientSecret) then
    ⟨.error .configMissing, cache, false⟩
  else
    match exchange with
    | .error _ => ⟨.error .exchangeFailed, cache, true⟩
    | .ok r =>
      ⟨.ok r.accessToken, ⟨some r.accessToken, now + (r.expiresIn - 300) * 1000⟩, true⟩

/-! ## Two concurrent callers of `getSpotifyToken` (C8)

JavaScript interleaves `async` functions only at `await` points. On a cache
miss one `getSpotifyToken` call consists of two atomic slices: from entry
up to `await fetch(...)` (cache check, env check, exchange request issued)
and from response arrival to return (cache written, token returned). The
model interleaves those slices for two callers sharing the module-level
cache, each with present secrets and a succeeding exchange. -/

inductive TaskPC
  | ready
  | awaitingExchange
  | finished (tok : String)
  deriving Repr, DecidableEq

structure TwoCallerState where
  cache : TokenCache
  task1 : TaskPC
  task2 : TaskPC
  exchangesStarted : Nat
  deriving Repr, DecidableEq

/-- Number of token-exchange requests currently in flight. -/
def inFlight (s : TwoCallerState) : Nat :=
  (if s.task1 = TaskPC.awaitingExchange then 1 else 0) +
  (if s.task2 = TaskPC.awaitingExchange then 1 else 0)

/-- One atomic slice of one caller, following `getSpotifyToken` line by
line. On `ready` with a valid cache the caller returns the cached token; on
a miss it issues its own exchange — the source has no flag recording an
exchange already in flight, so nothing stops the second caller doing the
same. On `awaitingExchange` the response (token `tok`, ttl `ttl` seconds)
arrives: the shared cache is overwritten and the caller returns. The third
component records whether this slice started an exchange. -/
def taskStep (now ttl : Int) (tok : String) (cache : TokenCache) :
    TaskPC → TokenCache × TaskPC × Bool
  | .ready =>
    if strTruthy cache.token ∧ now < cache.expires then
      (cache, .finished (cache.token.getD ""), false)
    else
      (cache, .awaitingExchange, true)
  | .awaitingExchange =>
    (⟨some tok, now + (ttl - 300) * 1000⟩, .finished tok, false)
  | .finished t => (cache, .finished t, false)

/-- Run one scheduler decision: `true` steps caller 1, `false` caller 2. -/
def sysStep (now ttl1 ttl2 : Int) (tok1 tok2 : String)
    (s : TwoCallerState) : Bool → TwoCallerState
  | true =>
    match taskStep now ttl1 tok1 s.cache s.task1 with
    | (c, pc, started) =>
      ⟨c, pc, s.task2, s.exchangesStarted + (if started then 1 else 0)⟩
  | false =>
    match taskStep now ttl2 tok2 s.cache s.task2 with
    | (c, pc, started) =>
      ⟨c, s.task1, pc, s.exchangesStarted + (if started then 1 else 0)⟩

/-- Run an arbitrary interleaving of the two callers' slices. -/
def runSchedule (now ttl1 ttl2 : Int) (tok1 tok2 : String) :
    TwoCallerState → List Bool → TwoCallerState
  | s, [] => s
  | s, b :: rest =>
    runSchedule now ttl1 ttl2 tok1 tok2 (sysStep now ttl1 ttl2 tok1 tok2 s b) rest

/-- Both callers arrive while the cache is in its initial `Empty` state. -/
def initialTwoCallers : TwoCallerState := ⟨initialTokenCache, .ready, .ready, 0⟩

/-! ## Entity fetches and the tiered matching pipeline -/

/-- A Spotify track as read by the handlers: `track.name`,
`track.artists?.map(a => a.name)` (so `track.artists?.[0]?.name` is the
head), `track.album?.name`, `track.external_ids?.isrc`. -/
structure SpotifyTrack where
  name : String
  artists : Option (List String)
  albumName : Option String
  isrc : Option String
  deriving Repr, DecidableEq

/-- A Spotify album as read by the `/map/album` handler: `album.name`,
`album.artists?.map(a => a.name)`, `album.external_ids?.upc`. -/
structure SpotifyAlbum where
  name : String
  artists : Option (List String)
  upc : Option String
  deriving Repr, DecidableEq

/-- The network calls a handler can make, in order of issue. For a run in
which a search throws, the recorded trace is truncated at the failing call. -/
inductive NetCall
  | tokenExchange
  | trackFetch (id : String)
  | albumFetch (id : String)
  | playlistFetch (id : String)
  | pageFetch
  | lookupFetch (id : String)
  | codeSearch (code : String)
  | textSearch (name artist : String)
  deriving Repr, DecidableEq

/-- The spec's `matchTier`: which strategy produced the surfaced match.
The source has no explicit tier variable; the tier is determined by which
search call produced the non-null result the handler returns. -/
inductive MatchTier
  | externalCode
  | text
  | noMatch
  deriving Repr, DecidableEq

/-- Result of one tiered resolution: the surfaced match, the tier that
produced it, and the destination-side search calls issued. -/
structure TierResult (α : Type) where
  found : Option α
  tier : MatchTier
  calls : List NetCall
  deriving Repr, DecidableEq

/-- The inlined two-tier matching pattern of index.js 321–323 (song,
spotify→apple), 399–401 (album, spotify→apple) and 494–500 (playlist
items): `let m = null; if (code) m = await codeSearch(code);
if (!m) m = await textSearch(name, artist);`. Text search runs whenever
tier 1 produced nothing, with no further guard. Oracles return `Except`
because an uncaught rejection propagates out of the pattern. -/
def twoTierResolve {α : Type} (code : Option String) (name artist : String)
    (codeSearch : String → Except SearchErr (Option α))
    (textSearch : String → String → Except SearchErr (Option α)) :
    Except SearchErr (TierResult α) :=
  match code with
  | some c =>
    if c = "" then twoTierText name artist textSearch []
    else
      match codeSearch c with
      | .error e => .error e
      | .ok (some v) => .ok ⟨some v, .externalCode, [NetCall.codeSearch c]⟩
      | .ok none => twoTierText name artist textSearch [NetCall.codeSearch c]
  | none => twoTierText name artist textSearch []
where
  twoTierText (name artist : String)
      (textSearch : String → String → Except SearchErr (Option α))
      (calls : List NetCall) : Except SearchErr (TierResult α) :=
    match textSearch name artist with
    | .error e => .error e
    | .ok (some v) => .ok ⟨some v, .text, calls ++ [NetCall.textSearch name artist]⟩
    | .ok none => .ok ⟨none, .noMatch, calls ++ [NetCall.textSearch name artist]⟩

/-- The apple→spotify song variant (index.js 340–342): identical to
`twoTierResolve` except that tier 2 is additionally gated on truthy name
and artist (`if (!sp && name && artist) ...`), since both come from a
nullable lookup. -/
def twoTierResolveGated {α : Type} (code name artist : Option String)
    (codeSearch : String → Except SearchErr (Option α))
    (textSearch : String → String → Except SearchErr (Option α)) :
    Except SearchErr (TierResult α) :=
  match code with
  | some c =>
    if c = "" then gatedText name artist textSearch []
    else
      match codeSearch c with
      | .error e => .error e
      | .ok (some v) => .ok ⟨some v, .externalCode, [NetCall.codeSearch c]⟩
      | .ok none => gatedText name artist textSearch [NetCall.codeSearch c]
  | none => gatedText name artist textSearch []
where
  gatedText (name artist : Option String)
      (textSearch : String → String → Except SearchErr (Option α))
      (calls : List NetCall) : Except SearchErr (TierResult α) :=
    match name, artist with
    | some n, some a =>
      if n = "" ∨ a = "" then .ok ⟨none, .noMatch, calls⟩
      else
        match textSearch n a with
        | .error e => .error e
        | .ok (some v) => .ok ⟨some v, .text, calls ++ [NetCall.textSearch n a]⟩
        | .ok none => .ok ⟨none, .noMatch, calls ++ [NetCall.textSearch n a]⟩
    | _, _ => .ok ⟨none, .noMatch, calls⟩

/-- The apple→spotify album branch (index.js 417–418): only a text search,
gated on truthy name and artist. No external-code search exists on this
path, even though `searchSpotifyAlbumByUpc` is defined (index.js 193–202)
— that helper is never called anywhere in the source. -/
def albumTextOnlyResolve (name artist : Option String)
    (textSearch : String → String → Except SearchErr (Option SpMatch)) :
    Except SearchErr (TierResult SpMatch) :=
  match name, artist with
  | some n, some a =>
    if n = "" ∨ a = "" then .ok ⟨none, .noMatch, []⟩
    else
      match textSearch n a with
      | .error e => .error e
      | .ok (some v) => .ok ⟨some v, .text, [NetCall.textSearch n a]⟩
      | .ok none => .ok ⟨none, .noMatch, [NetCall.textSearch n a]⟩
  | _, _ => .ok ⟨none, .noMatch, []⟩

/-! ## Playlist pagination (`getSpotifyPlaylist`, index.js 135–168) -/

/-- One element of a playlist `items` array; `item.track` can be null. -/
structure RawPlaylistItem where
  track : Option SpotifyTrack
  deriving Repr, DecidableEq

/-- Decoded body of the initial playlist metadata response (index.js
139–148): name, description, `owner?.display_name`, the embedded first page
`tracks.items`, and whether `tracks.next` holds a further page URL. -/
structure SpotifyPlaylistData where
  name : String
  description : String
  ownerDisplayName : Option String
  firstItems : List RawPlaylistItem
  hasNext : Bool
  deriving Repr, DecidableEq

/-- Outcome of fetching one subsequent page: a non-OK response, or items
plus whether a `next` cursor follows. -/
inductive PageResp
  | fail
  | page (items : List RawPlaylistItem) (hasNext : Bool)
  deriving Repr, DecidableEq

/-- The `while (nextUrl)` loop (index.js 151–160): follow pages while the
previous page supplied a `next` cursor; `break` on the first non-OK page,
keeping what was collected; concatenate in arrival order. The oracle list
supplies successive page outcomes (an exhausted oracle ends the loop). -/
def fetchRemainingPages : List PageResp → Bool → List RawPlaylistItem
  | _, false => []
  | [], true => []
  | PageResp.fail :: _, true => []
  | PageResp.page items hasNext :: rest, true =>
    items ++ fetchRemainingPages rest hasNext

/-- Number of page fetches the loop issues (the failing fetch included). -/
def remainingPageCalls : List PageResp → Bool → Nat
  | _, false => 0
  | [], true => 0
  | PageResp.fail :: _, true => 1
  | PageResp.page _ hasNext :: rest, true => 1 + remainingPageCalls rest hasNext

/-- What `getSpotifyPlaylist` returns on success. -/
structure PlaylistFetchResult where
  name : String
  description : String
  owner : Option String
  tracks : List SpotifyTrack
  deriving Repr, DecidableEq

/-- `getSpotifyPlaylist` (index.js 135–168): a failed metadata fetch throws
(`Except.error`); otherwise the embedded first page and all subsequent
pages are concatenated and
`allTracks.map(item => item.track).filter(Boolean)` drops null tracks. -/
def getSpotifyPlaylist (firstResp : Except Unit SpotifyPlaylistData)
    (pages : List PageResp) : Except Unit PlaylistFetchResult :=
  match firstResp with
  | .error e => .error e
  | .ok pd =>
    let allTracks := pd.firstItems ++ fetchRemainingPages pages pd.hasNext
    .ok ⟨pd.name, pd.description, pd.ownerDisplayName, allTracks.filterMap (·.track)⟩

/-! ## Route handlers (`/map/song`, `/map/album`, `/map/playlist`) -/

/-- Per-request oracles for `/map/song`: the shared token-cache state and
clock, the secrets, the token-exchange outcome, the two possible entity
fetches, and the four destination searches. -/
structure SongRouteCtx where
  tokenCache : TokenCache
  now : Int
  env : TokenEnv
  exchange : Except Unit TokenResp
  trackFetchResult : Except Unit SpotifyTrack
  lookupSong : FetchOutcome (Option (List ItunesTrackResult))
  appleIsrcSearch : String → Except SearchErr (Option AppleSongMatch)
  appleTextSearch : String → String → Except SearchErr (Option AppleSongMatch)
  spIsrcSearch : String → Except SearchErr (Option SpMatch)
  spTextSearch : String → String → Except SearchErr (Option SpMatch)

/-- Observable outcome of `/map/song`: 400 for unsupported links, 500 for a
caught upstream/auth throw, or the 200 payload (surfaced match and the tier
that produced it). -/
inductive SongRouteOut
  | badRequest
  | serverError
  | okSpotifyToApple (found : Option AppleSongMatch) (tier : MatchTier)
  | okAppleToSpotify (found : Option SpMatch) (tier : MatchTier)
  deriving Repr, DecidableEq

/-- The `/map/song` handler (index.js 308–357), after `parseInputUrl`. The
spotify branch requires a truthy id in its guard; the apple branch has no
id guard (but `itunesLookupById` refuses a falsy id before fetching).
Returns the outcome plus the ordered network-call trace. -/
def mapSongRoute (parsed : ParsedLink) (ctx : SongRouteCtx) :
    SongRouteOut × List NetCall :=
  match parsed.platform, parsed.kind with
  | .spotify, .song =>
    if strTruthy parsed.id then
      let tid := parsed.id.getD ""
      let tok := getSpotifyToken ctx.tokenCache ctx.now ctx.env ctx.exchange
      let tokCalls := if tok.exchangeCalled then [NetCall.tokenExchange] else []
      match tok.result with
      | .error _ => (.serverError, tokCalls)
      | .ok _ =>
        match ctx.trackFetchResult with
        | .error _ => (.serverError, tokCalls ++ [NetCall.trackFetch tid])
        | .ok track =>
          let name := track.name
          let artist := (track.artists.bind List.head?).getD ""
          let isrc := jsOrNull track.isrc
          match twoTierResolve isrc name artist ctx.appleIsrcSearch ctx.appleTextSearch with
          | .error _ => (.serverError, tokCalls ++ [NetCall.trackFetch tid])
          | .ok r => (.okSpotifyToApple r.found r.tier,
              tokCalls ++ [NetCall.trackFetch tid] ++ r.calls)
    else (.badRequest, [])
  | .apple, .song =>
    let lookupCalls :=
      if strTruthy parsed.id then [NetCall.lookupFetch (parsed.id.getD "")] else []
    match itunesLookupById parsed.id ctx.lookupSong with
    | .error _ => (.serverError, lookupCalls)
    | .ok lookup =>
      let name := jsOrNull (lookup.bind (·.trackName))
      let artist := jsOrNull (lookup.bind (·.artistName))
      let isrc := jsOrNull (lookup.bind (·.isrc))
      let tok := getSpotifyToken ctx.tokenCache ctx.now ctx.env ctx.exchange
      let tokCalls := if tok.exchangeCalled then [NetCall.tokenExchange] else []
      match tok.result with
      | .error _ => (.serverError, lookupCalls ++ tokCalls)
      | .ok _ =>
        match twoTierResolveGated isrc name artist ctx.spIsrcSearch ctx.spTextSearch with
        | .error _ => (.serverError, lookupCalls ++ tokCalls)
        | .ok r => (.okAppleToSpotify r.found r.tier, lookupCalls ++ tokCalls ++ r.calls)
  | _, _ => (.badRequest, [])

/-- Per-request oracles for `/map/album`. -/
structure AlbumRouteCtx where
  tokenCache : TokenCache
  now : Int
  env : TokenEnv
  exchange : Except Unit TokenResp
  albumFetchResult : Except Unit SpotifyAlbum
  lookupAlbum : FetchOutcome (Option (List ItunesAlbumResult))
  appleUpcSearch : String → Except SearchErr (Option AppleAlbumMatch)
  appleTextSearch : String → String → Except SearchErr (Option AppleAlbumMatch)
  spAlbumTextSearch : String → String → Except SearchErr (Option SpMatch)

/-- Observable outcome of `/map/album`. -/
inductive AlbumRouteOut
  | badRequest
  | serverError
  | okSpotifyToApple (found : Option AppleAlbumMatch) (tier : MatchTier)
  | okAppleToSpotify (found : Option SpMatch) (tier : MatchTier)
  deriving Repr, DecidableEq

/-- The `/map/album` handler (index.js 386–433). Both branches require a
truthy id in their guards. The spotify→apple branch runs the two-tier
UPC-then-text pipeline (399–401); the apple→spotify branch (411–425) looks
the album up by id, then performs only the gated text search. -/
def mapAlbumRoute (parsed : ParsedLink) (ctx : AlbumRouteCtx) :
    AlbumRouteOut × List NetCall :=
  match parsed.platform, parsed.kind with
  | .spotify, .album =>
    if strTruthy parsed.id then
      let aid := parsed.id.getD ""
      let tok := getSpotifyToken ctx.tokenCache ctx.now ctx.env ctx.exchange
      let tokCalls := if tok.exchangeCalled then [NetCall.tokenExchange] else []
      match tok.result with
      | .error _ => (.serverError, tokCalls)
      | .ok _ =>
        match ctx.albumFetchResult with
        | .error _ => (.serverError, tokCalls ++ [NetCall.albumFetch aid])
        | .ok album =>
          let name := album.name
          let artist := (album.artists.bind List.head?).getD ""
          let upc := jsOrNull album.upc
          match twoTierResolve upc name artist ctx.appleUpcSearch ctx.appleTextSearch with
          | .error _ => (.serverError, tokCalls ++ [NetCall.albumFetch aid])
          | .ok r => (.okSpotifyToApple r.found r.tier,
              tokCalls ++ [NetCall.albumFetch aid] ++ r.calls)
    else (.badRequest, [])
  | .apple, .album =>
    if strTruthy parsed.id then
      let aid := parsed.id.getD ""
      match itunesLookupById parsed.id ctx.lookupAlbum with
      | .error _ => (.serverError, [NetCall.lookupFetch aid])
      | .ok lookup =>
        let name := jsOrNull (lookup.bind (·.collectionName))
        let artist := jsOrNull (lookup.bind (·.artistName))
        let tok := getSpotifyToken ctx.tokenCache ctx.now ctx.env ctx.exchange
        let tokCalls := if tok.exchangeCalled then [NetCall.tokenExchange] else []
        match tok.result with
        | .error _ => (.serverError, NetCall.lookupFetch aid :: tokCalls)
        | .ok _ =>
          match albumTextOnlyResolve name artist ctx.spAlbumTextSearch with
          | .error _ => (.serverError, NetCall.lookupFetch aid :: tokCalls)
          | .ok r => (.okAppleToSpotify r.found r.tier,
              NetCall.lookupFetch aid :: tokCalls ++ r.calls)
    else (.badRequest, [])
  | _, _ => (.badRequest, [])

/-- The metadata the playlist handler extracts per track (index.js
486–491). -/
structure PlaylistItemMeta where
  name : String
  artists : List String
  album : Option String
  isrc : Option String
  deriving Repr, DecidableEq

/-- What one settled per-item promise carries (index.js 502). -/
structure PlaylistItemResult where
  spotifyMeta : PlaylistItemMeta
  apple : Option AppleSongMatch
  deriving Repr, DecidableEq

/-- The per-item promise executor (index.js 493–503). The executor is an
`async` function with no `try/catch`: a rejected search rejects the async
function's own — ignored — promise, `resolve` is never called, and the
outer promise stays pending forever. `Except.error` models that
never-settling outcome. -/
def resolvePlaylistItem (track : SpotifyTrack)
    (isrcSearch : String → Except SearchErr (Option AppleSongMatch))
    (textSearch : String → String → Except SearchErr (Option AppleSongMatch)) :
    Except SearchErr PlaylistItemResult :=
  let name := track.name
  let artist := (track.artists.bind List.head?).getD ""
  let isrc := jsOrNull track.isrc
  let meta : PlaylistItemMeta := ⟨name, track.artists.getD [], track.albumName, isrc⟩
  match twoTierResolve isrc name artist isrcSearch textSearch with
  | .error e => .error e
  | .ok r => .ok ⟨meta, r.found⟩

/-- `Promise.all(matchPromises)` (index.js 507): settles with the full list
only when every member settles; a single forever-pending member leaves the
join — and hence the whole request — pending. -/
def resolveAllItems (tracks : List SpotifyTrack)
    (isrcSearch : String → Except SearchErr (Option AppleSongMatch))
    (textSearch : String → String → Except SearchErr (Option AppleSongMatch)) :
    Except SearchErr (List PlaylistItemResult) :=
  tracks.mapM (fun t => resolvePlaylistItem t isrcSearch textSearch)

/-- The 200 payload of `/map/playlist` (index.js 509–523). -/
structure PlaylistResponse where
  name : String
  description : String
  owner : Option String
  matchList : List PlaylistItemResult
  originalCount : Nat
  matchedCount : Nat
  deriving Repr, DecidableEq

/-- Observable outcome of `/map/playlist`. `noResponse` is the run in which
some per-item promise never settles, so no HTTP response is ever sent. -/
inductive PlaylistRouteOut
  | badRequest
  | serverError
  | noResponse
  | okResp (resp : PlaylistResponse)
  deriving Repr, DecidableEq

/-- Per-request oracles for `/map/playlist`. -/
structure PlaylistRouteCtx where
  tokenCache : TokenCache
  now : Int
  env : TokenEnv
  exchange : Except Unit TokenResp
  firstPage : Except Unit SpotifyPlaylistData
  pages : List PageResp
  appleIsrcSearch : String → Except SearchErr (Option AppleSongMatch)
  appleTextSearch : String → String → Except SearchErr (Option AppleSongMatch)

/-- The `/map/playlist` handler (index.js 462–531). Guard: spotify platform,
playlist kind, truthy id. The trace records the token, metadata and page
fetches; the per-item search traffic happens inside the fan-out and is not
recorded. `matches` keeps only items whose `apple` field is non-null;
`trackCount.original` is the length of the fetched (null-filtered) track
list and `trackCount.matched` the length of the filtered results. -/
def mapPlaylistRoute (parsed : ParsedLink) (ctx : PlaylistRouteCtx) :
    PlaylistRouteOut × List NetCall :=
  match parsed.platform, parsed.kind with
  | .spotify, .playlist =>
    if strTruthy parsed.id then
      let pid := parsed.id.getD ""
      let tok := getSpotifyToken ctx.tokenCache ctx.now ctx.env ctx.exchange
      let tokCalls := if tok.exchangeCalled then [NetCall.tokenExchange] else []
      match tok.result with
      | .error _ => (.serverError, tokCalls)
      | .ok _ =>
        match ctx.firstPage with
        | .error _ => (.serverError, tokCalls ++ [NetCall.playlistFetch pid])
        | .ok pd =>
          let trace := tokCalls ++ [NetCall.playlistFetch pid] ++
            List.replicate (remainingPageCalls ctx.pages pd.hasNext) NetCall.pageFetch
          match getSpotifyPlaylist (.ok pd) ctx.pages with
          | .error _ => (.serverError, trace)
          | .ok playlist =>
            match resolveAllItems playlist.tracks ctx.appleIsrcSearch ctx.appleTextSearch with
            | .error _ => (.noResponse, trace)
            | .ok results =>
              let matched := results.filter (fun r => r.apple.isSome)
              (.okResp ⟨playlist.name, playlist.description, playlist.owner,
                matched, playlist.tracks.length, matched.length⟩, trace)
    else (.badRequest, [])
  | _, _ => (.badRequest, [])

/-! ## Shared lemmas -/

lemma isAllDigits_ne_empty {s : String} (h : isAllDigits s = true) : s ≠ "" := by
  intro he
  subst he
  exact absurd h (by decide)

lemma strTruthy_some {s : String} (h : s ≠ "") : strTruthy (some s) = true := by
  simp [strTruthy, h]

/-! ## C9 — Apple `i` query parameter dominates path inspection -/

/-- C9: for every platform-B (Apple) URL carrying the identifying query
parameter with a numeric identifier, `parse` returns kind Song with that
identifier as id, regardless of any path shape — the query-parameter signal
takes priority over all path inspection, including paths containing an
`album` segment. -/
theorem C9_query_param_dominates_path (u : UrlParts) (s : String)
    (hs : hostIncludes u.host "open.spotify.com" = false)
    (ha : hostIncludes u.host "music.apple.com" = true ∨
          hostIncludes u.host "itunes.apple.com" = true)
    (hq : u.queryI = some s) (hd : isAllDigits s = true) :
    parseInputUrl (some u) = ⟨.apple, .song, some s⟩ := by
  have hne : s ≠ "" := isAllDigits_ne_empty hd
  rcases ha with h | h <;>
    simp [parseInputUrl, hs, h, hq, strTruthy, hne]

/-- Witness for C9: an Apple URL whose path says `album` but whose `i`
query parameter is the numeric identifier 999 parses as a song. -/
theorem C9_witness :
    parseInputUrl (some ⟨"music.apple.com", ["us", "album", "name", "123"], some "999"⟩) =
      ⟨.apple, .song, some "999"⟩ :=
  C9_query_param_dominates_path _ "999" (by decide) (Or.inl (by decide)) rfl (by decide)

/-! ## C4 — Apple album id extraction from path segments -/

/-- Modelled from the spec's words, for comparison only (C4): "the
identifier is the first all-digit segment found scanning from two positions
after the marker, falling back to the last all-digit path segment". -/
def appleAlbumIdClaimRule (parts : List String) : Option String :=
  match parts.findIdx? (fun p => p = "album") with
  | none => none
  | some albumIdx =>
    match (parts.drop (albumIdx + 2)).find? (fun p => isAllDigits p) with
    | some d => some d
    | none => (parts.filter (fun p => isAllDigits p)).getLast?

/-- Counterexample to C4 as stated: for the Apple URL with path
`/album/x/y/123/abc` the claim's scanning rule finds the all-digit segment
`123` (at two-plus-one positions after the marker) and so demands
`kind=album, id="123"`; the code checks only the segment at exactly two
positions after the marker (`"y"`), then the literal last segment
(`"abc"`), and returns `kind=Unknown, id=null`. -/
theorem C4_counterexample :
    appleAlbumIdClaimRule ["album", "x", "y", "123", "abc"] = some "123" ∧
    parseInputUrl (some ⟨"music.apple.com", ["album", "x", "y", "123", "abc"], none⟩) =
      ⟨.apple, .unknownKind, none⟩ := by decide

/-- C4 as amended: for an Apple URL with no truthy `i` parameter whose path
contains an `album` segment (first occurrence at index `k`), the id is the
segment at exactly `k + 2` if that segment is all digits; otherwise the
literal last path segment if it is all digits (`appleLastSegmentId`);
otherwise `kind=Unknown` with a null id. -/
theorem C4_amended_exact_position_then_last (u : UrlParts) (k : Nat)
    (hs : hostIncludes u.host "open.spotify.com" = false)
    (ha : hostIncludes u.host "music.apple.com" = true ∨
          hostIncludes u.host "itunes.apple.com" = true)
    (hq : strTruthy u.queryI = false)
    (hk : u.parts.findIdx? (fun p => p = "album") = some k) :
    (∀ m, u.parts[k + 2]? = some m → isAllDigits m = true →
      parseInputUrl (some u) = ⟨.apple, .album, some m⟩) ∧
    (∀ m, u.parts[k + 2]? = some m → isAllDigits m = false →
      ∀ l, appleLastSegmentId u.parts = some l →
      parseInputUrl (some u) = ⟨.apple, .album, some l⟩) ∧
    (u.parts[k + 2]? = none → ∀ l, appleLastSegmentId u.parts = some l →
      parseInputUrl (some u) = ⟨.apple, .album, some l⟩) ∧
    ((∀ m, u.parts[k + 2]? = some m → isAllDigits m = false) →
      appleLastSegmentId u.parts = none →
      parseInputUrl (some u) = ⟨.apple, .unknownKind, none⟩) := by
  have hparse : parseInputUrl (some u) = appleAlbumFromPath u.parts := by
    rcases ha with h | h <;> simp [parseInputUrl, hs, h, hq]
  rw [hparse]
  refine ⟨?_, ?_, ?_, ?_⟩
  · intro m hm hd
    simp [appleAlbumFromPath, hk, hm, hd]
  · intro m hm hd l hl
    simp [appleAlbumFromPath, hk, hm, hd, hl]
  · intro hm l hl
    simp [appleAlbumFromPath, hk, hm, hl]
  · intro hm hl
    cases hcase : u.parts[k + 2]? with
    | none => simp [appleAlbumFromPath, hk, hcase, hl]
    | some m => simp [appleAlbumFromPath, hk, hcase, hm m hcase, hl]

/-- Witness for C4's amended theorem: path `/album/x/123` has `123` at
exactly two positions after the marker, so the parsed link is
`kind=album, id="123"`. -/
theorem C4_amended_witness :
    parseInputUrl (some ⟨"music.apple.com", ["album", "x", "123"], none⟩) =
      ⟨.apple, .album, some "123"⟩ :=
  (C4_amended_exact_position_then_last ⟨"music.apple.com", ["album", "x", "123"], none⟩ 0
    (by decide) (Or.inl (by decide)) (by decide) (by decide)).1 "123" (by decide) (by decide)

/-! ## C3 — non-null id invariant / rejection before any network call -/

/-- The spec's "known platform": one of the two recognized providers. -/
def knownPlatform : Platform → Bool
  | .spotify => true
  | .apple => true
  | _ => false

/-- The spec's "known, supported kind". -/
def supportedKind : LinkKind → Bool
  | .song => true
  | .album => true
  | .playlist => true
  | _ => false

lemma parse_spotify_host (u : UrlParts)
    (h1 : hostIncludes u.host "open.spotify.com" = true) :
    (parseInputUrl (some u)).platform = .spotify := by
  simp only [parseInputUrl, h1, if_true]
  split <;> rfl

lemma parse_apple_host (u : UrlParts)
    (h1 : hostIncludes u.host "open.spotify.com" = false)
    (h2 : hostIncludes u.host "music.apple.com" = true ∨
          hostIncludes u.host "itunes.apple.com" = true) :
    parseInputUrl (some u) =
      (if strTruthy u.queryI then ⟨.apple, .song, u.queryI⟩
       else appleAlbumFromPath u.parts) := by
  rcases h2 with h | h <;> simp [parseInputUrl, h1, h]

lemma appleAlbumFromPath_shape (parts : List String) :
    (∃ s, appleAlbumFromPath parts = ⟨.apple, .album, some s⟩) ∨
    appleAlbumFromPath parts = ⟨.apple, .unknownKind, none⟩ := by
  unfold appleAlbumFromPath
  split
  · split
    · split
      · exact Or.inl ⟨_, rfl⟩
      · split
        · exact Or.inl ⟨_, rfl⟩
        · exact Or.inr rfl
    · split
      · exact Or.inl ⟨_, rfl⟩
      · exact Or.inr rfl
  · exact Or.inr rfl

lemma mapSongRoute_reject (p : ParsedLink) (hpl : p.platform = .spotify)
    (hid : p.id = none) (ctx : SongRouteCtx) :
    mapSongRoute p ctx = (.badRequest, []) := by
  obtain ⟨pl, k, i⟩ := p
  cases hpl
  cases hid
  cases k <;> rfl

lemma mapAlbumRoute_reject (p : ParsedLink) (hpl : p.platform = .spotify)
    (hid : p.id = none) (ctx : AlbumRouteCtx) :
    mapAlbumRoute p ctx = (.badRequest, []) := by
  obtain ⟨pl, k, i⟩ := p
  cases hpl
  cases hid
  cases k <;> rfl

lemma mapPlaylistRoute_reject (p : ParsedLink) (hpl : p.platform = .spotify)
    (hid : p.id = none) (ctx : PlaylistRouteCtx) :
    mapPlaylistRoute p ctx = (.badRequest, []) := by
  obtain ⟨pl, k, i⟩ := p
  cases hpl
  cases hid
  cases k <;> rfl

/-- C3: for every input URL, either the parsed link has a non-null id
whenever its platform is known and its kind is known and supported, or —
when that invariant does not hold — every resolution entry point
(`/map/song`, `/map/album`, `/map/playlist`) answers 400 with an empty
network-call trace, for every possible oracle environment. -/
theorem C3_nonnull_id_or_reject_before_network (mu : Option UrlParts)
    (hp : knownPlatform (parseInputUrl mu).platform = true)
    (hk : supportedKind (parseInputUrl mu).kind = true) :
    (parseInputUrl mu).id ≠ none ∨
    ((∀ sctx, mapSongRoute (parseInputUrl mu) sctx = (.badRequest, [])) ∧
     (∀ actx, mapAlbumRoute (parseInputUrl mu) actx = (.badRequest, [])) ∧
     (∀ pctx, mapPlaylistRoute (parseInputUrl mu) pctx = (.badRequest, []))) := by
  cases mu with
  | none => exact absurd hp (by decide)
  | some u =>
    cases hid : (parseInputUrl (some u)).id with
    | some s => exact Or.inl (by simp [hid])
    | none =>
      right
      by_cases h1 : hostIncludes u.host "open.spotify.com" = true
      · have hpl := parse_spotify_host u h1
        exact ⟨fun sctx => mapSongRoute_reject _ hpl hid sctx,
               fun actx => mapAlbumRoute_reject _ hpl hid actx,
               fun pctx => mapPlaylistRoute_reject _ hpl hid pctx⟩
      · have h1' : hostIncludes u.host "open.spotify.com" = false := by
          simpa using h1
        by_cases h2 : hostIncludes u.host "music.apple.com" = true ∨
            hostIncludes u.host "itunes.apple.com" = true
        · exfalso
          have heq := parse_apple_host u h1' h2
          by_cases hq : strTruthy u.queryI = true
          · rw [heq] at hid
            simp only [hq, if_true] at hid
            rw [hid] at hq
            exact absurd hq (by decide)
          · have hq' : strTruthy u.queryI = false := by simpa using hq
            rw [heq] at hid hk
            simp only [hq', Bool.false_eq_true, if_false] at hid hk
            rcases appleAlbumFromPath_shape u.parts with ⟨t, hF⟩ | hF
            · rw [hF] at hid
              simp at hid
            · rw [hF] at hk
              exact absurd hk (by decide)
        · exfalso
          have hplat : (parseInputUrl (some u)).platform = .unknownPlat := by
            have h2a : hostIncludes u.host "music.apple.com" = false := by
              cases hmm : hostIncludes u.host "music.apple.com"
              · rfl
              · exact absurd (Or.inl hmm) h2
            have h2b : hostIncludes u.host "itunes.apple.com" = false := by
              cases hmm : hostIncludes u.host "itunes.apple.com"
              · rfl
              · exact absurd (Or.inr hmm) h2
            simp [parseInputUrl, h1', h2a, h2b]
          rw [hplat] at hp
          exact absurd hp (by decide)

/-- Witness for C3: the URL `https://open.spotify.com/track` (no id
segment) parses to a known platform and supported kind with a null id, and
all three mapper routes answer 400 without any network call. -/
theorem C3_witness :
    knownPlatform (parseInputUrl (some ⟨"open.spotify.com", ["track"], none⟩)).platform = true ∧
    supportedKind (parseInputUrl (some ⟨"open.spotify.com", ["track"], none⟩)).kind = true ∧
    ((parseInputUrl (some ⟨"open.spotify.com", ["track"], none⟩)).id ≠ none ∨
     ((∀ sctx, mapSongRoute (parseInputUrl (some ⟨"open.spotify.com", ["track"], none⟩)) sctx =
        (.badRequest, [])) ∧
      (∀ actx, mapAlbumRoute (parseInputUrl (some ⟨"open.spotify.com", ["track"], none⟩)) actx =
        (.badRequest, [])) ∧
      (∀ pctx, mapPlaylistRoute (parseInputUrl (some ⟨"open.spotify.com", ["track"], none⟩)) pctx =
        (.badRequest, [])))) :=
  ⟨by decide, by decide,
    C3_nonnull_id_or_reject_before_network (some ⟨"open.spotify.com", ["track"], none⟩)
      (by decide) (by decide)⟩

/-! ## C1 — tier ordering (external code before text) -/

/-- C1 counterexample fixture: the iTunes lookup result for the source
Apple album. It carries a non-null UPC (real lookup payloads can), which
the handler never reads. -/
def c1Lookup : ItunesAlbumResult :=
  ⟨some "Album", some 7, some "Nightfall", some "Aria",
    some "00602435497556", some "https://apple/alb", some "https://art"⟩

/-- What the destination's UPC search would find for that UPC. -/
def c1CodeItem : SpotifyItem := ⟨"sp1", "Nightfall", some "https://sp/1", some ["Aria"]⟩

/-- What the destination's text search finds (a different record). -/
def c1TextItem : SpotifyItem := ⟨"sp2", "Nightfall - Deluxe", some "https://sp/2", some ["Aria"]⟩

/-- Oracle environment for the C1 counterexample run: valid token cache,
successful album lookup, text search returning `c1TextItem`. -/
def c1Ctx : AlbumRouteCtx where
  tokenCache := ⟨some "tok", 1000⟩
  now := 0
  env := ⟨some "id", some "secret"⟩
  exchange := .ok ⟨"fresh", 3600⟩
  albumFetchResult := .error ()
  lookupAlbum := .response true (some [c1Lookup])
  appleUpcSearch := fun _ => .ok none
  appleTextSearch := fun _ _ => .ok none
  spAlbumTextSearch := fun _ _ => .ok (some (normalizeSpotifyItem c1TextItem))

/-- Counterexample to C1 as stated: in the apple→spotify album direction
the source entity carries a non-null UPC and the destination provider's
code search (`searchSpotifyAlbumByUpc`) would return a match for it, yet
the handler's resolution is the text-search match (tier Text, a different
record), and its network trace contains no code-search call at all — the
apple→spotify album branch never consults `searchSpotifyAlbumByUpc`. -/
theorem C1_counterexample :
    c1Lookup.upc = some "00602435497556" ∧
    searchSpotifyAlbumByUpc "00602435497556" (.response true (some [c1CodeItem])) =
      .ok (some (normalizeSpotifyItem c1CodeItem)) ∧
    normalizeSpotifyItem c1CodeItem ≠ normalizeSpotifyItem c1TextItem ∧
    mapAlbumRoute
        (parseInputUrl (some ⟨"music.apple.com", ["album", "nightfall", "123"], none⟩))
        c1Ctx =
      (.okAppleToSpotify (some (normalizeSpotifyItem c1TextItem)) .text,
        [NetCall.lookupFetch "123", NetCall.textSearch "Nightfall" "Aria"]) :=
  ⟨rfl, rfl, by decide, by decide⟩

/-- C1 as amended: the tier ordering holds on every resolution path that
consults an external-code search — songs spotify→apple and the playlist
items (`twoTierResolve`), songs apple→spotify (`twoTierResolveGated`), and
albums spotify→apple (`twoTierResolve`): whenever the source's code is
non-null and the destination's code search returns a result, the outcome is
exactly that match at tier ExternalCode and the single code-search call —
text search is never issued. The albums apple→spotify path
(`albumTextOnlyResolve`) performs no code search and can never produce tier
ExternalCode. -/
theorem C1_amended_tier_ordering {α : Type} (c name artist : String) (hc : c ≠ "")
    (codeSearch : String → Except SearchErr (Option α))
    (textSearch : String → String → Except SearchErr (Option α))
    (m : α) (hm : codeSearch c = .ok (some m)) :
    (twoTierResolve (some c) name artist codeSearch textSearch =
      .ok ⟨some m, .externalCode, [NetCall.codeSearch c]⟩) ∧
    (twoTierResolveGated (some c) (some name) (some artist) codeSearch textSearch =
      .ok ⟨some m, .externalCode, [NetCall.codeSearch c]⟩) ∧
    (∀ (n a : Option String) (ts : String → String → Except SearchErr (Option SpMatch))
      (r : TierResult SpMatch),
      albumTextOnlyResolve n a ts = .ok r → r.tier ≠ .externalCode) := by
  refine ⟨?_, ?_, ?_⟩
  · simp [twoTierResolve, hc, hm]
  · simp [twoTierResolveGated, hc, hm]
  · intro n a ts r hr
    unfold albumTextOnlyResolve at hr
    split at hr
    · split at hr
      · injection hr with h
        subst h
        simp
      · split at hr
        · simp at hr
        · injection hr with h
          subst h
          simp
        · injection hr with h
          subst h
          simp
    · injection hr with h
      subst h
      simp

/-- Witness for C1's amended theorem: a concrete code search that matches
the code "USX1" short-circuits resolution at tier ExternalCode even though
the text search would also succeed. -/
theorem C1_amended_witness :
    twoTierResolve (some "USX1") "N" "A"
        (fun s => if s = "USX1" then .ok (some 5) else .ok none)
        (fun _ _ => .ok (some 6)) =
      .ok ⟨some 5, .externalCode, [NetCall.codeSearch "USX1"]⟩ :=
  (C1_amended_tier_ordering "USX1" "N" "A" (by decide)
    (fun s => if s = "USX1" then .ok (some 5) else .ok none)
    (fun _ _ => .ok (some 6)) 5 (by simp)).1

/-! ## C5 — "not found" is a value, raising only on transport failure -/

/-- C5: every search helper — code search and text search on both providers
— returns `none` as a value when the provider finds no result, and also
converts a non-2xx response into `none`; the only outcome that raises is a
transport failure, so every response (2xx or not, with or without results)
yields an `ok` value. -/
theorem C5_no_result_is_value :
    (∀ q : String,
      searchSpotifyTrackByIsrc q .transportFail = .error .transport ∧
      (∀ body, searchSpotifyTrackByIsrc q (.response false body) = .ok none) ∧
      searchSpotifyTrackByIsrc q (.response true none) = .ok none ∧
      searchSpotifyTrackByIsrc q (.response true (some [])) = .ok none ∧
      (∀ okf body, ∃ v, searchSpotifyTrackByIsrc q (.response okf body) = .ok v)) ∧
    (∀ n a : String,
      searchSpotifyTrackByText n a .transportFail = .error .transport ∧
      (∀ body, searchSpotifyTrackByText n a (.response false body) = .ok none) ∧
      searchSpotifyTrackByText n a (.response true none) = .ok none ∧
      searchSpotifyTrackByText n a (.response true (some [])) = .ok none ∧
      (∀ okf body, ∃ v, searchSpotifyTrackByText n a (.response okf body) = .ok v)) ∧
    (∀ q : String,
      searchSpotifyAlbumByUpc q .transportFail = .error .transport ∧
      (∀ body, searchSpotifyAlbumByUpc q (.response false body) = .ok none) ∧
      searchSpotifyAlbumByUpc q (.response true none) = .ok none ∧
      searchSpotifyAlbumByUpc q (.response true (some [])) = .ok none ∧
      (∀ okf body, ∃ v, searchSpotifyAlbumByUpc q (.response okf body) = .ok v)) ∧
    (∀ n a : String,
      searchSpotifyAlbumByText n a .transportFail = .error .transport ∧
      (∀ body, searchSpotifyAlbumByText n a (.response false body) = .ok none) ∧
      searchSpotifyAlbumByText n a (.response true none) = .ok none ∧
      searchSpotifyAlbumByText n a (.response true (some [])) = .ok none ∧
      (∀ okf body, ∃ v, searchSpotifyAlbumByText n a (.response okf body) = .ok v)) ∧
    (∀ q : String,
      itunesSearchSongByIsrc q .transportFail = .error .transport ∧
      (∀ body, itunesSearchSongByIsrc q (.response false body) = .ok none) ∧
      itunesSearchSongByIsrc q (.response true none) = .ok none ∧
      itunesSearchSongByIsrc q (.response true (some [])) = .ok none ∧
      (∀ okf body, ∃ v, itunesSearchSongByIsrc q (.response okf body) = .ok v)) ∧
    (∀ n a : String,
      itunesSearchSongByText n a .transportFail = .error .transport ∧
      (∀ body, itunesSearchSongByText n a (.response false body) = .ok none) ∧
      itunesSearchSongByText n a (.response true none) = .ok none ∧
      itunesSearchSongByText n a (.response true (some [])) = .ok none ∧
      (∀ okf body, ∃ v, itunesSearchSongByText n a (.response okf body) = .ok v)) ∧
    (∀ q : String,
      itunesSearchAlbumByUpc q .transportFail = .error .transport ∧
      (∀ body, itunesSearchAlbumByUpc q (.response false body) = .ok none) ∧
      itunesSearchAlbumByUpc q (.response true none) = .ok none ∧
      itunesSearchAlbumByUpc q (.response true (some [])) = .ok none ∧
      (∀ okf body, ∃ v, itunesSearchAlbumByUpc q (.response okf body) = .ok v)) ∧
    (∀ n a : String,
      itunesSearchAlbumByText n a .transportFail = .error .transport ∧
      (∀ body, itunesSearchAlbumByText n a (.response false body) = .ok none) ∧
      itunesSearchAlbumByText n a (.response true none) = .ok none ∧
      itunesSearchAlbumByText n a (.response true (some [])) = .ok none ∧
      (∀ okf body, ∃ v, itunesSearchAlbumByText n a (.response okf body) = .ok v)) := by
  refine ⟨?_, ?_, ?_, ?_, ?_, ?_, ?_, ?_⟩
  · intro q
    refine ⟨rfl, fun body => rfl, rfl, rfl, ?_⟩
    intro okf body
    cases okf
    · exact ⟨none, rfl⟩
    · cases hb : body.bind List.head? with
      | none => exact ⟨none, by simp [searchSpotifyTrackByIsrc, hb]⟩
      | some item =>
        exact ⟨some (normalizeSpotifyItem item), by simp [searchSpotifyTrackByIsrc, hb]⟩
  · intro n a
    refine ⟨rfl, fun body => rfl, rfl, rfl, ?_⟩
    intro okf body
    cases okf
    · exact ⟨none, rfl⟩
    · cases hb : body.bind List.head? with
      | none => exact ⟨none, by simp [searchSpotifyTrackByText, hb]⟩
      | some item =>
        exact ⟨some (normalizeSpotifyItem item), by simp [searchSpotifyTrackByText, hb]⟩
  · intro q
    refine ⟨rfl, fun body => rfl, rfl, rfl, ?_⟩
    intro okf body
    cases okf
    · exact ⟨none, rfl⟩
    · cases hb : body.bind List.head? with
      | none => exact ⟨none, by simp [searchSpotifyAlbumByUpc, hb]⟩
      | some item =>
        exact ⟨some (normalizeSpotifyItem item), by simp [searchSpotifyAlbumByUpc, hb]⟩
  · intro n a
    refine ⟨rfl, fun body => rfl, rfl, rfl, ?_⟩
    intro okf body
    cases okf
    · exact ⟨none, rfl⟩
    · cases hb : body.bind List.head? with
      | none => exact ⟨none, by simp [searchSpotifyAlbumByText, hb]⟩
      | some item =>
        exact ⟨some (normalizeSpotifyItem item), by simp [searchSpotifyAlbumByText, hb]⟩
  · intro q
    refine ⟨rfl, fun body => rfl, rfl, rfl, ?_⟩
    intro okf body
    cases okf
    · exact ⟨none, rfl⟩
    · cases hb : body.bind (List.find? (fun r => r.kind = some "song")) with
      | none => exact ⟨none, by simp [itunesSearchSongByIsrc, hb]⟩
      | some item =>
        exact ⟨some (normalizeItunesSong item), by simp [itunesSearchSongByIsrc, hb]⟩
  · intro n a
    refine ⟨rfl, fun body => rfl, rfl, rfl, ?_⟩
    intro okf body
    cases okf
    · exact ⟨none, rfl⟩
    · cases hb : body.bind (List.find? (fun r => r.kind = some "song")) with
      | none => exact ⟨none, by simp [itunesSearchSongByText, hb]⟩
      | some item =>
        exact ⟨some (normalizeItunesSong item), by simp [itunesSearchSongByText, hb]⟩
  · intro q
    refine ⟨rfl, fun body => rfl, rfl, rfl, ?_⟩
    intro okf body
    cases okf
    · exact ⟨none, rfl⟩
    · cases hb : body.bind (List.find? isAlbumResult) with
      | none => exact ⟨none, by simp [itunesSearchAlbumByUpc, hb]⟩
      | some item =>
        exact ⟨some (normalizeItunesAlbum item), by simp [itunesSearchAlbumByUpc, hb]⟩
  · intro n a
    refine ⟨rfl, fun body => rfl, rfl, rfl, ?_⟩
    intro okf body
    cases okf
    · exact ⟨none, rfl⟩
    · cases hb : body.bind (List.find? isAlbumResult) with
      | none => exact ⟨none, by simp [itunesSearchAlbumByText, hb]⟩
      | some item =>
        exact ⟨some (normalizeItunesAlbum item), by simp [itunesSearchAlbumByText, hb]⟩

/-! ## C6 — pagination completeness, truncation, metadata-failure propagation -/

lemma filterMap_track_length (l : List RawPlaylistItem)
    (h : ∀ x ∈ l, (x.track).isSome = true) :
    (l.filterMap (·.track)).length = l.length := by
  induction l with
  | nil => rfl
  | cons a t ih =>
    have ha := h a (List.mem_cons_self a t)
    cases hx : a.track with
    | none => rw [hx] at ha; simp at ha
    | some tr =>
      simp only [List.filterMap_cons, hx, List.length_cons]
      rw [ih (fun x hx' => h x (List.mem_cons_of_mem _ hx'))]

/-- C6: `getSpotifyPlaylist` follows the pagination cursor until exhausted,
concatenating pages in provider order (three pages yield exactly their
concatenation, and with no null tracks the count is the sum of the page
sizes); a page failure after the first page truncates to the items already
collected instead of failing; a failed initial metadata fetch propagates as
an error. -/
theorem C6_pagination_completeness_and_truncation (n d : String) (o : Option String)
    (i1 i2 i3 : List RawPlaylistItem) (rest pages : List PageResp) (e : Unit)
    (hall : ∀ x ∈ i1 ++ i2 ++ i3, (x.track).isSome = true) :
    (getSpotifyPlaylist (.ok ⟨n, d, o, i1, true⟩) [.page i2 true, .page i3 false] =
      .ok ⟨n, d, o, (i1 ++ i2 ++ i3).filterMap (·.track)⟩) ∧
    ((i1 ++ i2 ++ i3).filterMap (·.track)).length =
      i1.length + i2.length + i3.length ∧
    (getSpotifyPlaylist (.ok ⟨n, d, o, i1, true⟩) (PageResp.fail :: rest) =
      .ok ⟨n, d, o, i1.filterMap (·.track)⟩) ∧
    getSpotifyPlaylist (.error e) pages = .error e := by
  refine ⟨?_, ?_, ?_, rfl⟩
  · simp [getSpotifyPlaylist, fetchRemainingPages]
  · rw [filterMap_track_length _ hall]
    simp only [List.length_append]
  · simp [getSpotifyPlaylist, fetchRemainingPages]

/-- A playlist item with a non-null track, for the C6 witness. -/
def c6Item : RawPlaylistItem := ⟨some ⟨"T", some ["A"], none, some "QQ111"⟩⟩

/-- Witness for C6: a mock provider returning pages of 100, 100 and 37
items yields exactly 237 items, in original order. -/
theorem C6_witness :
    (getSpotifyPlaylist
        (.ok ⟨"pl", "d", some "own", List.replicate 100 c6Item, true⟩)
        [.page (List.replicate 100 c6Item) true, .page (List.replicate 37 c6Item) false] =
      .ok ⟨"pl", "d", some "own",
        (List.replicate 100 c6Item ++ List.replicate 100 c6Item ++
          List.replicate 37 c6Item).filterMap (·.track)⟩) ∧
    ((List.replicate 100 c6Item ++ List.replicate 100 c6Item ++
        List.replicate 37 c6Item).filterMap (·.track)).length = 237 := by
  have h := C6_pagination_completeness_and_truncation "pl" "d" (some "own")
    (List.replicate 100 c6Item) (List.replicate 100 c6Item) (List.replicate 37 c6Item)
    [] [] () (by
      intro x hx
      have hx' : x = c6Item := by
        rcases List.mem_append.mp hx with h' | h'
        · rcases List.mem_append.mp h' with h'' | h''
          · exact List.eq_of_mem_replicate h''
          · exact List.eq_of_mem_replicate h''
        · exact List.eq_of_mem_replicate h'
      subst hx'
      rfl)
  refine ⟨h.1, ?_⟩
  rw [h.2.1]
  simp

/-! ## C7 — token cache contract -/

/-- C7: `getSpotifyToken` returns the cached value with no network call
while the cached credential is valid (`now < expires`); on a miss it fails
with the configuration error — without calling the exchange — when either
secret is absent; otherwise it performs the exchange and stores the token
with `expires = now + (expires_in − 300) · 1000`, i.e. provider TTL minus a
fixed 5-minute safety margin. -/
theorem C7_token_cache_contract (cache : TokenCache) (now : Int) (env : TokenEnv)
    (exchange : Except Unit TokenResp) :
    (strTruthy cache.token = true → now < cache.expires →
      getSpotifyToken cache now env exchange =
        ⟨.ok (cache.token.getD ""), cache, false⟩) ∧
    (¬(strTruthy cache.token = true ∧ now < cache.expires) →
      (strTruthy env.clientId && strTruthy env.clientSecret) = false →
      getSpotifyToken cache now env exchange = ⟨.error .configMissing, cache, false⟩) ∧
    (¬(strTruthy cache.token = true ∧ now < cache.expires) →
      (strTruthy env.clientId && strTruthy env.clientSecret) = true →
      ∀ r, exchange = .ok r →
      getSpotifyToken cache now env exchange =
        ⟨.ok r.accessToken, ⟨some r.accessToken, now + (r.expiresIn - 300) * 1000⟩, true⟩) := by
  refine ⟨?_, ?_, ?_⟩
  · intro h1 h2
    simp [getSpotifyToken, h1, h2]
  · intro h1 h2
    unfold getSpotifyToken
    rw [if_neg h1]
    simp [h2]
  · intro h1 h2 r hr
    subst hr
    unfold getSpotifyToken
    rw [if_neg h1]
    simp [h2]

/-- Witness for C7: a valid cached token is returned untouched with no
exchange, even though the secrets are absent and the exchange would fail. -/
theorem C7_witness :
    strTruthy (some "cached") = true ∧ (0 : Int) < 10 ∧
    getSpotifyToken ⟨some "cached", 10⟩ 0 ⟨none, none⟩ (.error ()) =
      ⟨.ok "cached", ⟨some "cached", 10⟩, false⟩ :=
  ⟨by decide, by decide,
    (C7_token_cache_contract ⟨some "cached", 10⟩ 0 ⟨none, none⟩ (.error ())).1
      (by decide) (by decide)⟩

/-! ## C8 — concurrent refreshes are not coalesced -/

/-- How many of the two callers have left their entry slice. A caller
starts at most one exchange, and only when leaving `ready`. -/
def nonReadyCount (s : TwoCallerState) : Nat :=
  (if s.task1 = TaskPC.ready then 0 else 1) +
  (if s.task2 = TaskPC.ready then 0 else 1)

/-- The shared cache only ever holds `null` or a token produced by one of
the two exchanges. -/
def cacheIntegrity (tok1 tok2 : String) (s : TwoCallerState) : Prop :=
  s.cache.token = none ∨ s.cache.token = some tok1 ∨ s.cache.token = some tok2

/-- Counterexample to C8 as stated: with the cache in its initial `Empty`
state, the interleaving in which both callers run their entry slice before
either exchange responds leaves two token-exchange requests in flight
simultaneously — the code coalesces nothing. -/
theorem C8_counterexample :
    inFlight (runSchedule 0 3600 3600 "t1" "t2" initialTwoCallers [true, false]) = 2 ∧
    (runSchedule 0 3600 3600 "t1" "t2" initialTwoCallers [true, false]).exchangesStarted = 2 := by
  decide

lemma cacheIntegrity_mk (tok1 tok2 : String) (c : TokenCache) (a b : TaskPC) (e : Nat) :
    cacheIntegrity tok1 tok2 ⟨c, a, b, e⟩ ↔
      (c.token = none ∨ c.token = some tok1 ∨ c.token = some tok2) := Iff.rfl

lemma sysStep_cache (now ttl1 ttl2 : Int) (tok1 tok2 : String)
    (s : TwoCallerState) (b : Bool) :
    (sysStep now ttl1 ttl2 tok1 tok2 s b).cache = s.cache ∨
    (sysStep now ttl1 ttl2 tok1 tok2 s b).cache.token = some tok1 ∨
    (sysStep now ttl1 ttl2 tok1 tok2 s b).cache.token = some tok2 := by
  obtain ⟨cache, t1, t2, ex⟩ := s
  cases b <;> cases t1 <;> cases t2 <;>
    first
      | exact Or.inl rfl
      | exact Or.inr (Or.inl rfl)
      | exact Or.inr (Or.inr rfl)
      | (simp only [sysStep, taskStep]; split <;> simp)

lemma sysStep_integrity (now ttl1 ttl2 : Int) (tok1 tok2 : String)
    (s : TwoCallerState) (b : Bool) (h2 : cacheIntegrity tok1 tok2 s) :
    cacheIntegrity tok1 tok2 (sysStep now ttl1 ttl2 tok1 tok2 s b) := by
  rcases sysStep_cache now ttl1 ttl2 tok1 tok2 s b with h | h | h
  · unfold cacheIntegrity at h2 ⊢
    rw [h]
    exact h2
  · exact Or.inr (Or.inl h)
  · exact Or.inr (Or.inr h)

lemma sysStep_count (now ttl1 ttl2 : Int) (tok1 tok2 : String)
    (s : TwoCallerState) (b : Bool)
    (h1 : s.exchangesStarted ≤ nonReadyCount s) :
    (sysStep now ttl1 ttl2 tok1 tok2 s b).exchangesStarted ≤
      nonReadyCount (sysStep now ttl1 ttl2 tok1 tok2 s b) := by
  obtain ⟨cache, t1, t2, ex⟩ := s
  cases b <;> cases t1 <;> cases t2 <;>
    simp only [sysStep, taskStep, nonReadyCount] at h1 ⊢ <;>
    first
      | (simp at h1 ⊢; omega)
      | (split <;> simp <;> simp at h1 <;> omega)
      | (simp <;> simp at h1 <;> omega)
      | omega

/-- C8 as amended: the cache performs no coalescing — each caller that
observes an invalid cache starts its own exchange (the counterexample
exhibits two in flight at once) — but a caller starts at most one exchange,
so two concurrent callers start at most two in total under every
interleaving, and the shared cache is never corrupted: after any schedule
it holds either `null` or a token returned by one of the two exchanges. -/
theorem C8_amended_per_caller_exchange_and_integrity
    (now ttl1 ttl2 : Int) (tok1 tok2 : String) (sched : List Bool) :
    (runSchedule now ttl1 ttl2 tok1 tok2 initialTwoCallers sched).exchangesStarted ≤ 2 ∧
    cacheIntegrity tok1 tok2 (runSchedule now ttl1 ttl2 tok1 tok2 initialTwoCallers sched) := by
  have key : ∀ (sch : List Bool) (s : TwoCallerState),
      s.exchangesStarted ≤ nonReadyCount s → cacheIntegrity tok1 tok2 s →
      (runSchedule now ttl1 ttl2 tok1 tok2 s sch).exchangesStarted ≤
        nonReadyCount (runSchedule now ttl1 ttl2 tok1 tok2 s sch) ∧
      cacheIntegrity tok1 tok2 (runSchedule now ttl1 ttl2 tok1 tok2 s sch) := by
    intro sch
    induction sch with
    | nil => exact fun s h1 h2 => ⟨h1, h2⟩
    | cons b rest ih =>
      intro s h1 h2
      exact ih _ (sysStep_count now ttl1 ttl2 tok1 tok2 s b h1)
        (sysStep_integrity now ttl1 ttl2 tok1 tok2 s b h2)
  have hfin := key sched initialTwoCallers (by decide) (Or.inl rfl)
  refine ⟨le_trans hfin.1 ?_, hfin.2⟩
  unfold nonReadyCount
  split <;> split <;> omega

/-! ## C2 — a single item's failure is not isolated -/

def c2Track (nm code : String) : SpotifyTrack := ⟨nm, some ["A"], none, some code⟩

/-- Ten playlist tracks; the fifth carries ISRC `I5`. -/
def c2Tracks : List SpotifyTrack :=
  [c2Track "T1" "I1", c2Track "T2" "I2", c2Track "T3" "I3", c2Track "T4" "I4",
   c2Track "T5" "I5", c2Track "T6" "I6", c2Track "T7" "I7", c2Track "T8" "I8",
   c2Track "T9" "I9", c2Track "T10" "I10"]

def c2Match : AppleSongMatch := ⟨some "M", [some "A"], none, none, none, none⟩

/-- The ISRC search succeeds for every code except `I5`, whose fetch
rejects with a transport error. -/
def c2IsrcSearch : String → Except SearchErr (Option AppleSongMatch) :=
  fun c => if c = "I5" then .error .transport else .ok (some c2Match)

def c2TextSearch : String → String → Except SearchErr (Option AppleSongMatch) :=
  fun _ _ => .ok (some c2Match)

/-- Oracle environment: valid token cache, one playlist page of the ten
tracks, the failing per-item search above. -/
def c2Ctx : PlaylistRouteCtx where
  tokenCache := ⟨some "tok", 1000⟩
  now := 0
  env := ⟨some "ci", some "cs"⟩
  exchange := .ok ⟨"fresh", 3600⟩
  firstPage := .ok ⟨"pl", "d", some "own", c2Tracks.map (fun t => ⟨some t⟩), false⟩
  pages := []
  appleIsrcSearch := c2IsrcSearch
  appleTextSearch := c2TextSearch

/-- C2 evaluated at the failing input (item 5 of 10 throws an upstream
error): the per-item executor has no catch, so the fifth promise rejects
inside `new Promise(async resolve => ...)`, `resolve` is never called,
`Promise.all` stays pending, and the handler produces no response at all —
instead of a `CollectionResult` with `totalCount = 10`, the failing item
mapped to no-match and the other nine items resolved. -/
theorem C2_item_failure_hangs_request :
    resolveAllItems c2Tracks c2IsrcSearch c2TextSearch = .error .transport ∧
    mapPlaylistRoute ⟨.spotify, .playlist, some "P"⟩ c2Ctx =
      (.noResponse, [NetCall.playlistFetch "P"]) :=
  ⟨rfl, by decide⟩

/-! ## C10 — playlist counts after null filtering and truncation -/

/-- C10: whenever `/map/playlist` produces a 200 response, the resolved
item list is exactly the null-filtered track list actually fetched (after
any pagination truncation), `trackCount.original` is that list's length —
so it can be lower than the playlist's declared slot count — and
`trackCount.matched` equals the length of the surfaced `matches` list. -/
theorem C10_playlist_counts (parsed : ParsedLink) (ctx : PlaylistRouteCtx)
    (resp : PlaylistResponse) (trace : List NetCall)
    (h : mapPlaylistRoute parsed ctx = (.okResp resp, trace)) :
    ∃ pd results,
      ctx.firstPage = .ok pd ∧
      resolveAllItems
          ((pd.firstItems ++ fetchRemainingPages ctx.pages pd.hasNext).filterMap (·.track))
          ctx.appleIsrcSearch ctx.appleTextSearch = .ok results ∧
      resp.matchList = results.filter (fun r => r.apple.isSome) ∧
      resp.originalCount =
        ((pd.firstItems ++ fetchRemainingPages ctx.pages pd.hasNext).filterMap (·.track)).length ∧
      resp.matchedCount = resp.matchList.length := by
  obtain ⟨pl, k, i⟩ := parsed
  cases pl <;> cases k
  case spotify.playlist =>
    simp only [mapPlaylistRoute] at h
    by_cases hid : strTruthy i = true
    · rw [if_pos hid] at h
      split at h
      · simp at h
      · split at h
        · simp at h
        · rename_i pd hpd
          split at h
          · rename_i e hpl
            simp [getSpotifyPlaylist] at hpl
          · rename_i playlist hpl
            simp only [getSpotifyPlaylist] at hpl
            injection hpl with hpl'
            subst hpl'
            split at h
            · simp at h
            · rename_i results hres
              injection h with h1 h2
              injection h1 with h1'
              subst h1'
              exact ⟨pd, results, hpd, hres, rfl, rfl, rfl⟩
    · rw [if_neg hid] at h
      simp at h
  all_goals simp [mapPlaylistRoute] at h

def c10TrackA : SpotifyTrack := ⟨"TA", some ["AA"], some "AlbA", some "IA"⟩

def c10Match : AppleSongMatch := ⟨some "MA", [some "AA"], none, none, none, none⟩

/-- Oracle environment for the C10 witness: two fetched item slots (one
with a null track), a second page lost to a page-fetch failure. -/
def c10Ctx : PlaylistRouteCtx where
  tokenCache := ⟨some "tok", 1000⟩
  now := 0
  env := ⟨some "ci", some "cs"⟩
  exchange := .ok ⟨"fresh", 3600⟩
  firstPage := .ok ⟨"pl", "d", some "own", [⟨some c10TrackA⟩, ⟨none⟩], true⟩
  pages := [PageResp.fail]
  appleIsrcSearch := fun _ => .ok (some c10Match)
  appleTextSearch := fun _ _ => .ok none

def c10Meta : PlaylistItemMeta := ⟨"TA", ["AA"], some "AlbA", some "IA"⟩

def c10Resp : PlaylistResponse := ⟨"pl", "d", some "own", [⟨c10Meta, some c10Match⟩], 1, 1⟩

/-- Witness for C10: with one null track among two fetched slots and a
truncated second page, the 200 response counts only the single non-null
fetched track (`originalCount = 1`, strictly below the two fetched slots),
and `matchedCount` equals the surfaced match list's length. -/
theorem C10_witness :
    (∃ pd results,
      c10Ctx.firstPage = .ok pd ∧
      resolveAllItems
          ((pd.firstItems ++ fetchRemainingPages c10Ctx.pages pd.hasNext).filterMap (·.track))
          c10Ctx.appleIsrcSearch c10Ctx.appleTextSearch = .ok results ∧
      c10Resp.matchList = results.filter (fun r => r.apple.isSome) ∧
      c10Resp.originalCount =
        ((pd.firstItems ++ fetchRemainingPages c10Ctx.pages pd.hasNext).filterMap (·.track)).length ∧
      c10Resp.matchedCount = c10Resp.matchList.length) ∧
    c10Resp.originalCount < ([⟨some c10TrackA⟩, ⟨none⟩] : List RawPlaylistItem).length :=
  ⟨C10_playlist_counts ⟨.spotify, .playlist, some "P"⟩ c10Ctx c10Resp
      [NetCall.playlistFetch "P", NetCall.pageFetch] (by decide),
    by decide⟩

end MusicBridge
